import Mathlib

/-!
Shallow embedding of the posterior-evaluation layer of the sbi repository
(file `sbi/inference/posteriors/snle_posterior.py`, class `SnlePosterior`),
together with theorems settling the frozen claims about it.

Tensors are modelled by their shape (a list of dimension sizes) and a flat
list of integer entries (the claims under scrutiny are about shapes, error
raising and which computation is composed, never about floating-point
numerics).  Exceptions are modelled with `Except`; the non-fatal warning
emitted by `log_prob` and the invocation of the MCMC machinery are recorded
in an explicit event trace; the evaluator's mutable state is threaded
explicitly through `sample`.
-/

/-- A tensor shape, as in `torch.Size`: the list of dimension sizes. -/
abbrev Shape := List Nat

/-- A tensor: its shape together with its flat data. -/
structure Tensor where
  shape : Shape
  data : List Int
deriving Repr, DecidableEq

/-- Number of elements of a tensor, as in `torch.Tensor.numel`: the product
of the dimension sizes (1 for an empty shape). -/
def Tensor.numel (t : Tensor) : Nat := t.shape.prod

/-- Elementwise addition of two tensors of equal shape, as in `torch.add`
on same-shaped operands. -/
def Tensor.add (a b : Tensor) : Tensor :=
  { shape := a.shape, data := List.zipWith (fun u v => u + v) a.data b.data }

/-- The error taxonomy of the spec: `configurationError` for a missing
conditioning observation, `validationError` for shape violations, and
`runtimeError` for errors raised by the underlying tensor library
(e.g. an impossible `reshape`). -/
inductive SbiError where
  | configurationError
  | validationError
  | runtimeError
deriving Repr, DecidableEq

/-- MCMC parameter dictionary (`mcmc_parameters`), modelled as an
association list from option names to integer values. -/
abbrev McmcParams := List (String × Int)

/-- Observable events of a call: the unnormalized-log-probability warning
emitted by `log_prob`, and an invocation of the MCMC machinery recording
the number of requested samples, the method and the parameters passed. -/
inductive Event where
  | warnUnnormalized
  | mcmcRun (num_samples : Nat) (mcmc_method : String) (mcmc_parameters : McmcParams)
deriving Repr, DecidableEq

/-- The mutable state of the evaluator: the stored default conditioning
observation `default_x` (set by `set_default_x` / multi-round training),
and the stored default MCMC method and parameters from the constructor. -/
structure EvalState where
  default_x : Option Tensor
  mcmc_method : String
  mcmc_parameters : McmcParams
deriving Repr, DecidableEq

/-- The `SnlePosterior` object: the externally owned collaborators it
closes over.  `net_log_prob x theta` is `self.net.log_prob(x, theta)`,
`prior_log_prob theta` is `self._prior.log_prob(theta)`, and
`sample_posterior_mcmc` is the inherited `self._sample_posterior_mcmc`
(arguments: x, num_samples, show_progress_bars, mcmc_method,
mcmc_parameters). -/
structure SnlePosterior where
  net_log_prob : Tensor → Tensor → Tensor
  prior_log_prob : Tensor → Tensor
  sample_posterior_mcmc : Tensor → Nat → Bool → String → McmcParams → Tensor

/-- Modelled from the spec: `atleast_2d_float32_tensor` (from
`sbi.utils.torchutils`, not under src/) coerces a tensor to a 2D float
tensor; a 1-D tensor of length n becomes shape (1, n), a 0-D scalar
becomes shape (1, 1), higher-dimensional tensors are unchanged.  The
float32 cast is invisible in the integer data model. -/
def atleast_2d_float32_tensor (t : Tensor) : Tensor :=
  if 2 ≤ t.shape.length then t
  else if t.shape.length = 1 then { t with shape := 1 :: t.shape }
  else { t with shape := [1, 1] }

/-- Modelled from the spec: `ensure_theta_batched` (from
`sbi.utils.torchutils`, not under src/) coerces theta to at-least-2D batch
form: a single 1-D parameter vector gains a leading batch dimension. -/
def ensure_theta_batched (t : Tensor) : Tensor :=
  if t.shape.length = 1 then { t with shape := 1 :: t.shape } else t

/-- Modelled from the spec: `self._x_else_default_x` (inherited from
`NeuralPosterior`, not under src/) resolves x to either the supplied value
or the stored default, and fails with `ConfigurationError` when neither is
available. -/
def x_else_default_x (st : EvalState) (x : Option Tensor) : Except SbiError Tensor :=
  match x with
  | some t => Except.ok t
  | none =>
    match st.default_x with
    | some d => Except.ok d
    | none => Except.error SbiError.configurationError

/-- Modelled from the spec: `self._ensure_single_x` (inherited from
`NeuralPosterior`, not under src/) enforces the single-observation
constraint, failing with `ValidationError` when the batch dimension of x
is not 1. -/
def ensure_single_x (x : Tensor) : Except SbiError Unit :=
  if x.shape.headD 1 = 1 then Except.ok () else Except.error SbiError.validationError

/-- Modelled from the spec: `self._ensure_x_consistent_with_default_x`
(inherited from `NeuralPosterior`, not under src/) enforces consistency
with a previously fixed default observation, failing with
`ValidationError` when the shapes mismatch. -/
def ensure_x_consistent_with_default_x (st : EvalState) (x : Tensor) :
    Except SbiError Unit :=
  match st.default_x with
  | none => Except.ok ()
  | some d =>
    if x.shape = (atleast_2d_float32_tensor d).shape then Except.ok ()
    else Except.error SbiError.validationError

/-- Modelled from the spec: `self._build_theta_x_for_log_prob_` (inherited
from `NeuralPosterior`, not under src/) resolves x (supplied value or
stored default, `ConfigurationError` if neither) and coerces theta to
at-least-2D batch form before evaluation. -/
def build_theta_x_for_log_prob (st : EvalState) (theta : Tensor)
    (x : Option Tensor) : Except SbiError (Tensor × Tensor) :=
  match x_else_default_x st x with
  | Except.error e => Except.error e
  | Except.ok x0 =>
    Except.ok (ensure_theta_batched theta, atleast_2d_float32_tensor x0)

/-- The `samples.reshape((*sample_shape, -1))` of line 182 of
`snle_posterior.py`: reshape to the given leading dimensions, inferring
the trailing dimension.  As in torch, this fails when the product of the
given dimensions is zero (the -1 is then ambiguous) or does not divide
the number of elements. -/
def reshape_infer_last (t : Tensor) (lead : Shape) : Option Tensor :=
  if lead.prod = 0 then none
  else if t.numel % lead.prod = 0 then
    some { shape := lead ++ [t.numel / lead.prod], data := t.data }
  else none

/-- `SnlePosterior.log_prob` (lines 94-123 of `snle_posterior.py`):
resolve and batch theta and x, emit the unnormalization warning, and
return `self.net.log_prob(x, theta) + self._prior.log_prob(theta)`.
The `track_gradients` flag only toggles gradient recording and does not
change the returned value.  The result pairs the returned value (or the
raised error) with the trace of emitted events. -/
def SnlePosterior.log_prob (P : SnlePosterior) (st : EvalState) (theta : Tensor)
    (x : Option Tensor) (track_gradients : Bool) :
    Except SbiError Tensor × List Event :=
  match build_theta_x_for_log_prob st theta x with
  | Except.error e => (Except.error e, [])
  | Except.ok (theta1, x1) =>
    (Except.ok (Tensor.add (P.net_log_prob x1 theta1) (P.prior_log_prob theta1)),
      [Event.warnUnnormalized])

/-- `SnlePosterior.sample` (lines 125-182 of `snle_posterior.py`):
resolve x (default fallback, then 2D float coercion), enforce the
single-observation and default-consistency checks, compute
`num_samples = torch.Size(sample_shape).numel()`, resolve `mcmc_method`
and `mcmc_parameters` against the stored defaults, delegate to
`self._sample_posterior_mcmc`, and reshape to `(*sample_shape, -1)`.
The `sample_with_mcmc` argument is accepted but never used in the body.
The result pairs the returned value (or raised error) and the event
trace with the evaluator state after the call. -/
def SnlePosterior.sample (P : SnlePosterior) (st : EvalState)
    (sample_shape : Shape) (x : Option Tensor) (show_progress_bars : Bool)
    (sample_with_mcmc : Option Bool) (mcmc_method : Option String)
    (mcmc_parameters : Option McmcParams) :
    (Except SbiError Tensor × List Event) × EvalState :=
  match x_else_default_x st x with
  | Except.error e => ((Except.error e, []), st)
  | Except.ok x0 =>
    let x1 := atleast_2d_float32_tensor x0
    match ensure_single_x x1 with
    | Except.error e => ((Except.error e, []), st)
    | Except.ok _ =>
      match ensure_x_consistent_with_default_x st x1 with
      | Except.error e => ((Except.error e, []), st)
      | Except.ok _ =>
        let num_samples := sample_shape.prod
        let method := mcmc_method.getD st.mcmc_method
        let params := mcmc_parameters.getD st.mcmc_parameters
        let samples := P.sample_posterior_mcmc x1 num_samples show_progress_bars
          method params
        match reshape_infer_last samples sample_shape with
        | some out => ((Except.ok out, [Event.mcmcRun num_samples method params]), st)
        | none =>
          ((Except.error SbiError.runtimeError,
            [Event.mcmcRun num_samples method params]), st)

/-- The merge semantics the spec words of claim C6 describe: caller
entries win, and stored default entries not overridden by the caller
still apply.  Written from the spec for comparison with the code. -/
def specMergeParams (stored caller : McmcParams) : McmcParams :=
  caller ++ stored.filter (fun p => (List.lookup p.1 caller).isNone)

/-- The adapter contract stated by the spec: the MCMC machinery returns a
flat batch of exactly the requested number of draws, each row of the
parameter dimensionality. -/
def McmcWellShaped (P : SnlePosterior) (paramDim : Nat) : Prop :=
  ∀ x n sp m mp, (P.sample_posterior_mcmc x n sp m mp).shape = [n, paramDim]

/-- A concrete conditioning observation of shape (1, 4), used in witnesses. -/
def demoX : Tensor := { shape := [1, 4], data := [0, 0, 0, 0] }

/-- A concrete multi-row observation of shape (2, 3), violating the
single-observation constraint. -/
def bigX : Tensor := { shape := [2, 3], data := [0, 0, 0, 0, 0, 0] }

/-- A concrete observation of shape (1, 3), incompatible with `demoX`. -/
def smallX : Tensor := { shape := [1, 3], data := [0, 0, 0] }

/-- A concrete parameter batch of shape (1, 1). -/
def demoTheta : Tensor := { shape := [1, 1], data := [3] }

/-- A concrete posterior over 2-dimensional parameters: network and prior
log-densities are the identity on theta, and the MCMC machinery returns a
zero batch of the requested size. -/
def demoPosterior : SnlePosterior :=
  { net_log_prob := fun _ theta => theta
    prior_log_prob := fun theta => theta
    sample_posterior_mcmc := fun _ n _ _ _ =>
      { shape := [n, 2], data := List.replicate (n * 2) 0 } }

/-- A concrete state with no default observation. -/
def demoState : EvalState :=
  { default_x := none, mcmc_method := "slice_np", mcmc_parameters := [] }

/-- A concrete state whose default observation is `demoX` and whose
stored MCMC parameter defaults set a thinning factor and warm-up steps. -/
def mergeState : EvalState :=
  { default_x := some demoX
    mcmc_method := "slice_np"
    mcmc_parameters := [("thin", 10), ("warmup_steps", 20)] }

/-- Helper: when x resolves, both shape checks pass, the MCMC adapter
satisfies its shape contract and the requested number of samples is
nonzero, `sample` succeeds and its full result can be computed. -/
theorem sample_ok_of_valid (P : SnlePosterior) (st : EvalState) (paramDim : Nat)
    (sample_shape : Shape) (x : Option Tensor) (sp : Bool) (swm : Option Bool)
    (mm : Option String) (mp : Option McmcParams) (x0 : Tensor)
    (hP : McmcWellShaped P paramDim)
    (h1 : x_else_default_x st x = Except.ok x0)
    (h2 : ensure_single_x (atleast_2d_float32_tensor x0) = Except.ok ())
    (h3 : ensure_x_consistent_with_default_x st (atleast_2d_float32_tensor x0) =
      Except.ok ())
    (hn : sample_shape.prod ≠ 0) :
    (P.sample st sample_shape x sp swm mm mp).1 =
      (Except.ok
        { shape := sample_shape ++ [paramDim]
          data := (P.sample_posterior_mcmc (atleast_2d_float32_tensor x0)
            sample_shape.prod sp (mm.getD st.mcmc_method)
            (mp.getD st.mcmc_parameters)).data },
        [Event.mcmcRun sample_shape.prod (mm.getD st.mcmc_method)
          (mp.getD st.mcmc_parameters)]) := by
  have hshape := hP (atleast_2d_float32_tensor x0) sample_shape.prod sp
    (mm.getD st.mcmc_method) (mp.getD st.mcmc_parameters)
  have hnum : (P.sample_posterior_mcmc (atleast_2d_float32_tensor x0)
      sample_shape.prod sp (mm.getD st.mcmc_method)
      (mp.getD st.mcmc_parameters)).numel = sample_shape.prod * paramDim := by
    simp [Tensor.numel, hshape]
  have hdiv : sample_shape.prod * paramDim / sample_shape.prod = paramDim :=
    Nat.mul_div_cancel_left paramDim (Nat.pos_of_ne_zero hn)
  simp only [SnlePosterior.sample, h1, h2, h3]
  simp [reshape_infer_last, hnum, hn, Nat.mul_mod_right, hdiv]

/-- C1: for every parameter batch theta and every resolved conditioning
observation (supplied, or taken from the stored default), `log_prob`
returns `net.log_prob(x, theta) + prior.log_prob(theta)`, the
unnormalized posterior log-density, for any gradient-tracking setting. -/
theorem snle_log_prob_is_net_plus_prior (P : SnlePosterior) (st : EvalState)
    (theta : Tensor) (x : Option Tensor) (tg : Bool) (theta1 x1 : Tensor)
    (h : build_theta_x_for_log_prob st theta x = Except.ok (theta1, x1)) :
    (P.log_prob st theta x tg).1 =
      Except.ok (Tensor.add (P.net_log_prob x1 theta1) (P.prior_log_prob theta1)) := by
  simp [SnlePosterior.log_prob, h]

/-- Witness for C1 at a concrete posterior, state, theta and supplied x. -/
theorem snle_log_prob_is_net_plus_prior_witness :
    (demoPosterior.log_prob demoState demoTheta (some demoX) false).1 =
      Except.ok (Tensor.add
        (demoPosterior.net_log_prob (atleast_2d_float32_tensor demoX)
          (ensure_theta_batched demoTheta))
        (demoPosterior.prior_log_prob (ensure_theta_batched demoTheta))) :=
  snle_log_prob_is_net_plus_prior demoPosterior demoState demoTheta (some demoX)
    false (ensure_theta_batched demoTheta) (atleast_2d_float32_tensor demoX) rfl

/-- C3: for every supplied x whose batch dimension (after 2D coercion)
exceeds 1, `sample` raises `ValidationError` and no MCMC computation is
started (the event trace is empty). -/
theorem sample_multi_batch_x_fails_before_mcmc (P : SnlePosterior)
    (st : EvalState) (sample_shape : Shape) (x : Tensor) (sp : Bool)
    (swm : Option Bool) (mm : Option String) (mp : Option McmcParams)
    (h : 1 < (atleast_2d_float32_tensor x).shape.headD 1) :
    (P.sample st sample_shape (some x) sp swm mm mp).1 =
      (Except.error SbiError.validationError, ([] : List Event)) := by
  have hne : ¬ (atleast_2d_float32_tensor x).shape.headD 1 = 1 := by omega
  have hsx : ensure_single_x (atleast_2d_float32_tensor x) =
      Except.error SbiError.validationError := by
    unfold ensure_single_x
    rw [if_neg hne]
  simp [SnlePosterior.sample, x_else_default_x, hsx]

/-- Witness for C3 at a concrete two-row observation. -/
theorem sample_multi_batch_x_fails_before_mcmc_witness :
    (demoPosterior.sample demoState [1] (some bigX) true none none none).1 =
      (Except.error SbiError.validationError, ([] : List Event)) :=
  sample_multi_batch_x_fails_before_mcmc demoPosterior demoState [1] bigX true
    none none none (by decide)

/-- C4: when no default observation has ever been set, both `log_prob`
and `sample` called without x raise `ConfigurationError`. -/
theorem missing_x_raises_configuration_error (P : SnlePosterior)
    (st : EvalState) (theta : Tensor) (tg : Bool) (sample_shape : Shape)
    (sp : Bool) (swm : Option Bool) (mm : Option String) (mp : Option McmcParams)
    (h : st.default_x = none) :
    (P.log_prob st theta none tg).1 = Except.error SbiError.configurationError ∧
    ((P.sample st sample_shape none sp swm mm mp).1).1 =
      Except.error SbiError.configurationError := by
  constructor
  · simp [SnlePosterior.log_prob, build_theta_x_for_log_prob, x_else_default_x, h]
  · simp [SnlePosterior.sample, x_else_default_x, h]

/-- Witness for C4 at a concrete state with no default observation. -/
theorem missing_x_raises_configuration_error_witness :
    (demoPosterior.log_prob demoState demoTheta none false).1 =
      Except.error SbiError.configurationError ∧
    ((demoPosterior.sample demoState [1] none true none none none).1).1 =
      Except.error SbiError.configurationError :=
  missing_x_raises_configuration_error demoPosterior demoState demoTheta false
    [1] true none none none rfl

/-- C5: once a default observation is fixed, a `sample` call whose x has
a shape incompatible with that default raises `ValidationError`. -/
theorem sample_inconsistent_x_raises_validation_error (P : SnlePosterior)
    (st : EvalState) (sample_shape : Shape) (sp : Bool) (swm : Option Bool)
    (mm : Option String) (mp : Option McmcParams) (x d : Tensor)
    (h1 : st.default_x = some d)
    (h2 : (atleast_2d_float32_tensor x).shape ≠ (atleast_2d_float32_tensor d).shape) :
    ((P.sample st sample_shape (some x) sp swm mm mp).1).1 =
      Except.error SbiError.validationError := by
  by_cases hb : (atleast_2d_float32_tensor x).shape.headD 1 = 1
  · have hsx : ensure_single_x (atleast_2d_float32_tensor x) = Except.ok () := by
      unfold ensure_single_x
      rw [if_pos hb]
    have hcx : ensure_x_consistent_with_default_x st (atleast_2d_float32_tensor x) =
        Except.error SbiError.validationError := by
      unfold ensure_x_consistent_with_default_x
      simp only [h1]
      rw [if_neg h2]
    simp [SnlePosterior.sample, x_else_default_x, hsx, hcx]
  · have hsx : ensure_single_x (atleast_2d_float32_tensor x) =
        Except.error SbiError.validationError := by
      unfold ensure_single_x
      rw [if_neg hb]
    simp [SnlePosterior.sample, x_else_default_x, hsx]

/-- Witness for C5: default (1, 4), supplied x of shape (1, 3). -/
theorem sample_inconsistent_x_raises_validation_error_witness :
    ((demoPosterior.sample mergeState [1] (some smallX) true none none none).1).1 =
      Except.error SbiError.validationError :=
  sample_inconsistent_x_raises_validation_error demoPosterior mergeState [1]
    true none none none smallX demoX rfl (by decide)

/-- Counterexample to C2 as stated: at sample_shape = [0] the call does
not return a tensor with leading dimensions [0]; the trailing -1 of the
final reshape is ambiguous for 0 requested samples and the call errors. -/
theorem sample_zero_shape_counterexample :
    ((demoPosterior.sample demoState [0] (some demoX) true none none none).1).1 =
      Except.error SbiError.runtimeError := rfl

/-- C2 amended: for every sample_shape whose total number of requested
samples is nonzero, `sample` draws `num_samples = product(sample_shape)`
flat posterior draws and returns a tensor whose leading dimensions equal
sample_shape and whose trailing dimension is the parameter
dimensionality. -/
theorem sample_shape_and_count_correct (P : SnlePosterior) (st : EvalState)
    (paramDim : Nat) (sample_shape : Shape) (x : Option Tensor) (sp : Bool)
    (swm : Option Bool) (mm : Option String) (mp : Option McmcParams)
    (x0 : Tensor)
    (hP : McmcWellShaped P paramDim)
    (h1 : x_else_default_x st x = Except.ok x0)
    (h2 : ensure_single_x (atleast_2d_float32_tensor x0) = Except.ok ())
    (h3 : ensure_x_consistent_with_default_x st (atleast_2d_float32_tensor x0) =
      Except.ok ())
    (hn : sample_shape.prod ≠ 0) :
    ∃ out : Tensor,
      ((P.sample st sample_shape x sp swm mm mp).1).1 = Except.ok out ∧
      out.shape = sample_shape ++ [paramDim] ∧
      ((P.sample st sample_shape x sp swm mm mp).1).2 =
        [Event.mcmcRun sample_shape.prod (mm.getD st.mcmc_method)
          (mp.getD st.mcmc_parameters)] := by
  have h := sample_ok_of_valid P st paramDim sample_shape x sp swm mm mp x0
    hP h1 h2 h3 hn
  exact ⟨_, by rw [h], rfl, by rw [h]⟩

/-- Witness for the amended C2 at sample_shape = [2, 3] over a
2-dimensional parameter space. -/
theorem sample_shape_and_count_correct_witness :
    ∃ out : Tensor,
      ((demoPosterior.sample demoState [2, 3] (some demoX) true none none
          none).1).1 = Except.ok out ∧
      out.shape = [2, 3] ++ [2] ∧
      ((demoPosterior.sample demoState [2, 3] (some demoX) true none none
          none).1).2 =
        [Event.mcmcRun (([2, 3] : Shape)).prod
          ((none : Option String).getD demoState.mcmc_method)
          ((none : Option McmcParams).getD demoState.mcmc_parameters)] :=
  sample_shape_and_count_correct demoPosterior demoState 2 [2, 3] (some demoX)
    true none none none demoX (fun _ _ _ _ _ => rfl) rfl rfl rfl (by decide)

/-- Counterexample to C6 as stated: with stored defaults thin=10,
warmup_steps=20 and a caller-supplied dictionary holding only thin=5, the
parameters actually passed to MCMC are exactly the caller's dictionary —
the stored warmup_steps entry does not still apply, whereas the per-entry
merge the claim describes would keep it. -/
theorem mcmc_parameters_not_merged_counterexample :
    ((demoPosterior.sample mergeState [2] none true none none
        (some [("thin", 5)])).1).2 =
      [Event.mcmcRun 2 "slice_np" [("thin", 5)]] ∧
    List.lookup "warmup_steps"
      (specMergeParams mergeState.mcmc_parameters [("thin", 5)]) = some 20 ∧
    List.lookup "warmup_steps" ([("thin", 5)] : McmcParams) = none := by
  refine ⟨rfl, ?_, rfl⟩
  rfl

/-- C6 amended: caller-supplied mcmc_method and mcmc_parameters each
replace the stored default as a whole — when an argument is supplied it
is used verbatim (a supplied parameters dictionary discards all stored
entries), and when it is omitted the stored default is used. -/
theorem mcmc_overrides_replace_wholesale (P : SnlePosterior) (st : EvalState)
    (sample_shape : Shape) (x : Option Tensor) (sp : Bool) (swm : Option Bool)
    (mm : Option String) (mp : Option McmcParams) (n : Nat) (m : String)
    (p : McmcParams)
    (h : Event.mcmcRun n m p ∈ ((P.sample st sample_shape x sp swm mm mp).1).2) :
    m = mm.getD st.mcmc_method ∧ p = mp.getD st.mcmc_parameters ∧
      n = sample_shape.prod := by
  simp only [SnlePosterior.sample] at h
  split at h
  · simp at h
  · split at h
    · simp at h
    · split at h
      · simp at h
      · split at h
        · simp at h
          exact ⟨h.2.1, h.2.2, h.1⟩
        · simp at h
          exact ⟨h.2.1, h.2.2, h.1⟩

/-- Witness for the amended C6 at a concrete call whose caller supplies a
parameters dictionary and omits the method. -/
theorem mcmc_overrides_replace_wholesale_witness :
    "slice_np" = (none : Option String).getD mergeState.mcmc_method ∧
    ([("thin", 5)] : McmcParams) =
      (some [("thin", 5)] : Option McmcParams).getD mergeState.mcmc_parameters ∧
    2 = (([2] : Shape)).prod :=
  mcmc_overrides_replace_wholesale demoPosterior mergeState [2] none true none
    none (some [("thin", 5)]) 2 "slice_np" [("thin", 5)] (List.Mem.head _)

/-- C7: whenever `log_prob` returns a value, the non-fatal
unnormalization warning has been emitted alongside it, and the
unnormalization concern is never raised as an exception — the only error
`log_prob` can raise is `ConfigurationError` from resolving x. -/
theorem log_prob_warns_and_returns (P : SnlePosterior) (st : EvalState)
    (theta : Tensor) (x : Option Tensor) (tg : Bool) :
    (∀ v, (P.log_prob st theta x tg).1 = Except.ok v →
      (P.log_prob st theta x tg).2 = [Event.warnUnnormalized]) ∧
    (∀ e, (P.log_prob st theta x tg).1 = Except.error e →
      e = SbiError.configurationError) := by
  cases x with
  | some t =>
    refine ⟨fun v hv => rfl, fun e he => ?_⟩
    simp [SnlePosterior.log_prob, build_theta_x_for_log_prob,
      x_else_default_x] at he
  | none =>
    cases hd : st.default_x with
    | some d =>
      refine ⟨fun v hv => ?_, fun e he => ?_⟩
      · simp [SnlePosterior.log_prob, build_theta_x_for_log_prob,
          x_else_default_x, hd]
      · simp [SnlePosterior.log_prob, build_theta_x_for_log_prob,
          x_else_default_x, hd] at he
    | none =>
      refine ⟨fun v hv => ?_, fun e he => ?_⟩
      · simp [SnlePosterior.log_prob, build_theta_x_for_log_prob,
          x_else_default_x, hd] at hv
      · simp [SnlePosterior.log_prob, build_theta_x_for_log_prob,
          x_else_default_x, hd] at he
        exact he.symm

/-- Witness for C7 at a concrete call that returns a value. -/
theorem log_prob_warns_and_returns_witness :
    (demoPosterior.log_prob demoState demoTheta (some demoX) false).2 =
      [Event.warnUnnormalized] :=
  (log_prob_warns_and_returns demoPosterior demoState demoTheta (some demoX)
    false).1
    (Tensor.add
      (demoPosterior.net_log_prob (atleast_2d_float32_tensor demoX)
        (ensure_theta_batched demoTheta))
      (demoPosterior.prior_log_prob (ensure_theta_batched demoTheta))) rfl

/-- C8: no `sample` call mutates the evaluator's stored default
observation or its stored default MCMC method or parameters: the state
after any `sample` call equals the state before it, on every path
(success or any raised error). -/
theorem sample_preserves_state (P : SnlePosterior) (st : EvalState)
    (sample_shape : Shape) (x : Option Tensor) (sp : Bool) (swm : Option Bool)
    (mm : Option String) (mp : Option McmcParams) :
    (P.sample st sample_shape x sp swm mm mp).2 = st := by
  simp only [SnlePosterior.sample]
  split
  · rfl
  · split
    · rfl
    · split
      · rfl
      · split <;> rfl

/-- C9: the `sample_with_mcmc` argument of `sample` is a no-op for this
method family: for identical remaining arguments and state, any two
values of it produce identical results — MCMC is always used. -/
theorem sample_with_mcmc_is_noop (P : SnlePosterior) (st : EvalState)
    (sample_shape : Shape) (x : Option Tensor) (sp : Bool)
    (mm : Option String) (mp : Option McmcParams) (b1 b2 : Option Bool) :
    P.sample st sample_shape x sp b1 mm mp =
      P.sample st sample_shape x sp b2 mm mp := rfl

/-- C10: with the default empty sample_shape, `sample` requests exactly
one draw (the product over an empty shape is 1) and returns a single
unbatched parameter vector of shape (parameter_dim,). -/
theorem sample_empty_shape_single_draw (P : SnlePosterior) (st : EvalState)
    (paramDim : Nat) (x : Option Tensor) (sp : Bool) (swm : Option Bool)
    (mm : Option String) (mp : Option McmcParams) (x0 : Tensor)
    (hP : McmcWellShaped P paramDim)
    (h1 : x_else_default_x st x = Except.ok x0)
    (h2 : ensure_single_x (atleast_2d_float32_tensor x0) = Except.ok ())
    (h3 : ensure_x_consistent_with_default_x st (atleast_2d_float32_tensor x0) =
      Except.ok ()) :
    ∃ out : Tensor,
      ((P.sample st [] x sp swm mm mp).1).1 = Except.ok out ∧
      out.shape = [paramDim] ∧
      ((P.sample st [] x sp swm mm mp).1).2 =
        [Event.mcmcRun 1 (mm.getD st.mcmc_method)
          (mp.getD st.mcmc_parameters)] := by
  have h := sample_ok_of_valid P st paramDim [] x sp swm mm mp x0 hP h1 h2 h3
    (by decide)
  refine ⟨_, by rw [h], rfl, ?_⟩
  rw [h]
  rfl

/-- Witness for C10 at a concrete posterior over 2-dimensional
parameters. -/
theorem sample_empty_shape_single_draw_witness :
    ∃ out : Tensor,
      ((demoPosterior.sample demoState [] (some demoX) true none none
          none).1).1 = Except.ok out ∧
      out.shape = [2] ∧
      ((demoPosterior.sample demoState [] (some demoX) true none none
          none).1).2 =
        [Event.mcmcRun 1 ((none : Option String).getD demoState.mcmc_method)
          ((none : Option McmcParams).getD demoState.mcmc_parameters)] :=
  sample_empty_shape_single_draw demoPosterior demoState 2 (some demoX) true
    none none none demoX (fun _ _ _ _ _ => rfl) rfl rfl rfl
